import Mathlib

/-!
Shallow embedding of the CanvasLibreChat core: the Canvas LMS server routes
(`src/api/server/routes/canvas.js`) and the browse/upload panel component
(`CanvasPanel.tsx`).  Server handlers are modelled as pure functions from the
ambient configuration and the outcome of each upstream fetch to the response
sent and a trace of the network requests attempted; the React component is
modelled as a state record with one Lean function per event handler.
-/

namespace CanvasLibreChat

/-! ## Upstream data model (shapes used by the routes and the panel) -/

/-- An upstream Canvas course, restricted to the fields the routes read. -/
structure Course where
  id : Nat
  name : String
  course_code : String
  workflow_state : String
  enrollment_term_id : Nat
deriving DecidableEq, Repr

/-- The course shape the `/courses` route sends to the frontend
(the object literal built in the `.map` at canvas.js lines 35-41). -/
structure FormattedCourse where
  id : Nat
  name : String
  course_code : String
  workflow_state : String
  enrollment_term_id : Nat
deriving DecidableEq, Repr

/-- The per-course mapping of the `/courses` route (canvas.js lines 35-41). -/
def formatCourse (c : Course) : FormattedCourse :=
  { id := c.id
    name := c.name
    course_code := c.course_code
    workflow_state := c.workflow_state
    enrollment_term_id := c.enrollment_term_id }

/-- Body computation of the `/courses` route (canvas.js lines 33-42):
filter to `workflow_state === 'available'`, map to the frontend shape,
then `.slice(0, 20)`. -/
def coursesBody (upstream : List Course) : List FormattedCourse :=
  (((upstream.filter fun c => c.workflow_state == "available").map formatCourse).take 20)

/-! ## Configuration guard shared by every route -/

/-- Environment configuration read by every handler:
`process.env.CANVAS_API_KEY` and `process.env.CANVAS_BASE_URL`
(`none` models an unset variable). -/
structure CanvasConfig where
  apiKey : Option String
  baseUrl : Option String
deriving DecidableEq, Repr

/-- JavaScript falsiness of a `string | undefined` env value:
`undefined` and the empty string are falsy. -/
def isFalsy : Option String → Bool
  | none => true
  | some s => s.isEmpty

/-- The guard `!canvasApiKey || !canvasBaseUrl` present in every handler. -/
def configMissing (cfg : CanvasConfig) : Bool :=
  isFalsy cfg.apiKey || isFalsy cfg.baseUrl

/-- The base URL string used to build upstream request URLs
(empty when unset; only ever used after the guard passed). -/
def baseUrlStr (cfg : CanvasConfig) : String :=
  (cfg.baseUrl).getD ""

/-- Outcome of one upstream `fetch`, as the handlers observe it:
either `response.ok` with a parsed JSON payload, or a non-ok status. -/
inductive FetchResult (α : Type) where
  | ok (data : α)
  | notOk (status : Nat) (statusText : String)
deriving DecidableEq, Repr

/-- A route's reply: `res.json(data)` (HTTP 200) or
`res.status(500).json({ error })`. -/
inductive ApiResult (α : Type) where
  | success (data : α)
  | failure (error : String)
deriving DecidableEq, Repr

/-! ## GET /courses -/

/-- The `GET /courses` handler (canvas.js lines 6-51), as a function of the
configuration and of its single upstream fetch outcome.  Returns the reply
together with the list of upstream URLs actually requested. -/
def getCoursesHandler (cfg : CanvasConfig) (upstream : FetchResult (List Course)) :
    ApiResult (List FormattedCourse) × List String :=
  if configMissing cfg then
    (ApiResult.failure "Canvas configuration not found", [])
  else
    let url := "https://" ++ baseUrlStr cfg ++ "/api/v1/courses?enrollment_state=active&include[]=term"
    match upstream with
    | FetchResult.notOk _ _ => (ApiResult.failure "Failed to fetch courses from Canvas LMS", [url])
    | FetchResult.ok courses => (ApiResult.success (coursesBody courses), [url])

/-- Concrete upstream course used by the Scenario A instance: course `i` is
`available` unless `i % 8 = 7` (so of indices 0-24, exactly 7, 15, 23 are not). -/
def mkCourse (i : Nat) : Course :=
  { id := i
    name := "Course"
    course_code := "CC"
    workflow_state := if i % 8 = 7 then "unpublished" else "available"
    enrollment_term_id := 1 }

/-- Scenario A upstream list: 25 courses, 22 of them `available`. -/
def scenarioA : List Course :=
  (List.range 25).map mkCourse

/-! ## GET /courses/:courseId/modules and .../items -/

/-- An upstream Canvas module, restricted to the fields the route maps
(canvas.js lines 81-90). -/
structure CModule where
  id : Nat
  name : String
  position : Nat
  unlock_at : Option String
  require_sequential_progress : Bool
  state : String
  completed_at : Option String
  items_count : Nat
deriving DecidableEq, Repr

/-- The per-module mapping of the modules route (canvas.js lines 81-90):
a passthrough of the listed fields. -/
def formatModule (m : CModule) : CModule :=
  { id := m.id
    name := m.name
    position := m.position
    unlock_at := m.unlock_at
    require_sequential_progress := m.require_sequential_progress
    state := m.state
    completed_at := m.completed_at
    items_count := m.items_count }

/-- The `GET /courses/:courseId/modules` handler (canvas.js lines 53-99). -/
def getModulesHandler (cfg : CanvasConfig) (courseId : String)
    (upstream : FetchResult (List CModule)) :
    ApiResult (List CModule) × List String :=
  if configMissing cfg then
    (ApiResult.failure "Canvas configuration not found", [])
  else
    let url := "https://" ++ baseUrlStr cfg ++ "/api/v1/courses/" ++ courseId ++ "/modules"
    match upstream with
    | FetchResult.notOk _ _ => (ApiResult.failure "Failed to fetch modules from Canvas LMS", [url])
    | FetchResult.ok modules => (ApiResult.success (modules.map formatModule), [url])

/-- An upstream Canvas module item, restricted to the fields the route maps
(canvas.js lines 129-142).  `completion_requirement` is an opaque JSON value
(`any` in the TS interface), modelled as an optional string. -/
structure ModuleItem where
  id : Nat
  title : String
  type : String
  content_id : Nat
  html_url : String
  url : String
  page_url : String
  external_url : String
  position : Nat
  indent : Nat
  completion_requirement : Option String
  published : Bool
deriving DecidableEq, Repr

/-- The per-item mapping of the items route (canvas.js lines 129-142):
a passthrough of the listed fields. -/
def formatItem (it : ModuleItem) : ModuleItem :=
  { id := it.id
    title := it.title
    type := it.type
    content_id := it.content_id
    html_url := it.html_url
    url := it.url
    page_url := it.page_url
    external_url := it.external_url
    position := it.position
    indent := it.indent
    completion_requirement := it.completion_requirement
    published := it.published }

/-- The `GET /courses/:courseId/modules/:moduleId/items` handler
(canvas.js lines 101-151). -/
def getItemsHandler (cfg : CanvasConfig) (courseId moduleId : String)
    (upstream : FetchResult (List ModuleItem)) :
    ApiResult (List ModuleItem) × List String :=
  if configMissing cfg then
    (ApiResult.failure "Canvas configuration not found", [])
  else
    let url := "https://" ++ baseUrlStr cfg ++ "/api/v1/courses/" ++ courseId ++
      "/modules/" ++ moduleId ++ "/items"
    match upstream with
    | FetchResult.notOk _ _ =>
      (ApiResult.failure "Failed to fetch module items from Canvas LMS", [url])
    | FetchResult.ok items => (ApiResult.success (items.map formatItem), [url])

/-! ## GET /files/:fileId -/

/-- Upstream Canvas file metadata, restricted to the fields the routes read
(`fileData` in canvas.js; `contentType` models `fileData['content-type']`). -/
structure CanvasFileData where
  id : Nat
  filename : String
  display_name : String
  contentType : String
  size : Nat
  url : String
  created_at : String
  updated_at : String
deriving DecidableEq, Repr

/-- The body of the file-metadata route's reply (canvas.js lines 181-190). -/
structure FileMetaBody where
  id : Nat
  filename : String
  display_name : String
  content_type : String
  size : Nat
  url : String
  created_at : String
  updated_at : String
deriving DecidableEq, Repr

/-- The `GET /files/:fileId` handler (canvas.js lines 153-197). -/
def getFileHandler (cfg : CanvasConfig) (fileId : String)
    (upstream : FetchResult CanvasFileData) :
    ApiResult FileMetaBody × List String :=
  if configMissing cfg then
    (ApiResult.failure "Canvas configuration not found", [])
  else
    let url := "https://" ++ baseUrlStr cfg ++ "/api/v1/files/" ++ fileId
    match upstream with
    | FetchResult.notOk _ _ => (ApiResult.failure "Failed to fetch file from Canvas LMS", [url])
    | FetchResult.ok fd =>
      (ApiResult.success
        { id := fd.id
          filename := fd.filename
          display_name := fd.display_name
          content_type := fd.contentType
          size := fd.size
          url := fd.url
          created_at := fd.created_at
          updated_at := fd.updated_at }, [url])

/-! ## POST /files/:fileId/download-and-upload (the relay) -/

/-- The `originalFile` object stored for response augmentation
(canvas.js lines 270-274). -/
structure OriginalFileInfo where
  id : Nat
  filename : String
  display_name : String
deriving DecidableEq, Repr

/-- The JSON body a relay response can carry, with one optional slot per field
any branch of the handler may set: the spread of the ingestion result, the
`originalFile` and `message` added by the `res.json` override, and the
`error` / `details` of the catch branch.  A field absent from the sent JSON is
`none`. -/
structure RelayBody where
  ingestResult : Option String
  originalFile : Option OriginalFileInfo
  message : Option String
  error : Option String
  details : Option String
deriving DecidableEq, Repr

/-- Modelled from the spec: the internal ingestion pipeline collaborator
(`processFileUpload` from `~/server/services/Files/process`, not under
`src/`).  Per §4.3/§6/§7 of the spec it either responds with its ingestion
result (sent through `res.json`, hence HTTP 200) or raises an
`IngestionError`; it is otherwise opaque. -/
inductive IngestOutcome where
  | ok (result : String)
  | raise (errMessage : String)
deriving DecidableEq, Repr

/-- Everything the relay handler's run depends on besides the configuration:
the request parameters, the two upstream fetch outcomes, the ingestion
outcome, and whether the final `fs.unlinkSync` succeeds. -/
structure RelayEnv where
  fileId : String
  userId : String
  uploadsDir : String
  metadataResult : FetchResult CanvasFileData
  downloadOk : Bool
  downloadStatus : Nat
  downloadStatusText : String
  ingest : IngestOutcome
  unlinkOk : Bool
deriving DecidableEq, Repr

/-- Observable outcome of one relay call: the HTTP reply, the upstream
requests attempted, and the staged temporary file's lifecycle. -/
structure RelayOutcome where
  status : Nat
  body : RelayBody
  requests : List String
  tempCreated : Bool
  tempPath : Option String
  unlinkAttempted : Bool
  tempExistsAfter : Bool
deriving DecidableEq, Repr

/-- The staged path built at canvas.js lines 242-247:
`path.join(uploads, 'temp', req.user.id)` joined with the upstream filename. -/
def tempFilePathOf (uploadsDir userId filename : String) : String :=
  uploadsDir ++ "/temp/" ++ userId ++ "/" ++ filename

/-- The success message interpolated by the `res.json` override
(canvas.js line 282). -/
def relayMessage (fd : CanvasFileData) : String :=
  "File \"" ++ fd.display_name ++ "\" uploaded successfully to file search!"

/-- A body with only `error` (and possibly `details`) set, as produced by
`res.status(500).json({ error, details })` with no override in place. -/
def plainErrorBody (error : String) (details : Option String) : RelayBody :=
  { ingestResult := none
    originalFile := none
    message := none
    error := some error
    details := details }

/-- The `POST /files/:fileId/download-and-upload` handler
(canvas.js lines 201-304), step by step:
configuration guard; metadata fetch; content download; staging of the temp
file; installing the `res.json` override that augments any subsequently sent
body with `originalFile` and `message`; the ingestion handoff
(`await processFileUpload`); and, only on the success path, the
`fs.unlinkSync` cleanup wrapped in its own try/catch.  A raise from the
ingestion handoff jumps to the outer catch, whose
`res.status(500).json({ error, details })` goes through the installed
override — and which performs no cleanup. -/
def downloadAndUpload (cfg : CanvasConfig) (env : RelayEnv) : RelayOutcome :=
  if configMissing cfg then
    { status := 500
      body := plainErrorBody "Canvas configuration not found" none
      requests := []
      tempCreated := false
      tempPath := none
      unlinkAttempted := false
      tempExistsAfter := false }
  else
    let metaUrl := "https://" ++ baseUrlStr cfg ++ "/api/v1/files/" ++ env.fileId
    match env.metadataResult with
    | FetchResult.notOk st stText =>
      { status := 500
        body := plainErrorBody "Failed to upload file to LibreChat"
          (some ("Canvas API error: " ++ toString st ++ " " ++ stText))
        requests := [metaUrl]
        tempCreated := false
        tempPath := none
        unlinkAttempted := false
        tempExistsAfter := false }
    | FetchResult.ok fd =>
      if env.downloadOk = false then
        { status := 500
          body := plainErrorBody "Failed to upload file to LibreChat"
            (some ("File download error: " ++ toString env.downloadStatus ++ " " ++
              env.downloadStatusText))
          requests := [metaUrl, fd.url]
          tempCreated := false
          tempPath := none
          unlinkAttempted := false
          tempExistsAfter := false }
      else
        let stagedPath := tempFilePathOf env.uploadsDir env.userId fd.filename
        let origInfo : OriginalFileInfo :=
          { id := fd.id, filename := fd.filename, display_name := fd.display_name }
        match env.ingest with
        | IngestOutcome.ok r =>
          { status := 200
            body :=
              { ingestResult := some r
                originalFile := some origInfo
                message := some (relayMessage fd)
                error := none
                details := none }
            requests := [metaUrl, fd.url]
            tempCreated := true
            tempPath := some stagedPath
            unlinkAttempted := true
            tempExistsAfter := !env.unlinkOk }
        | IngestOutcome.raise m =>
          { status := 500
            body :=
              { ingestResult := none
                originalFile := some origInfo
                message := some (relayMessage fd)
                error := some "Failed to upload file to LibreChat"
                details := some m }
            requests := [metaUrl, fd.url]
            tempCreated := true
            tempPath := some stagedPath
            unlinkAttempted := false
            tempExistsAfter := true }

/-! ## CanvasPanel: browse navigator (CanvasPanel.tsx) -/

/-- `type ViewType = 'courses' | 'modules' | 'items'`. -/
inductive ViewType where
  | courses
  | modules
  | items
deriving DecidableEq, Repr

/-- The navigation-relevant React state of `CanvasPanel`
(`useState` hooks, CanvasPanel.tsx lines 49-58). -/
structure NavState where
  courses : List Course
  modules : List CModule
  items : List ModuleItem
  loading : Bool
  error : Option String
  currentView : ViewType
  selectedCourse : Option Course
  selectedModule : Option CModule
deriving DecidableEq, Repr

/-- The initial state of the hooks (before the mount effect's fetch). -/
def navInit : NavState :=
  { courses := []
    modules := []
    items := []
    loading := true
    error := none
    currentView := ViewType.courses
    selectedCourse := none
    selectedModule := none }

/-- Outcome of one browse fetch as the component observes it:
the parsed list on `response.ok`, or the thrown error's message. -/
inductive BrowseOutcome (α : Type) where
  | success (data : α)
  | failure (msg : String)
deriving DecidableEq, Repr

/-- Net effect of `fetchCourses` inside the mount effect
(CanvasPanel.tsx lines 61-75): on success store the list; on failure set
`error`; either way `loading` ends `false`; `currentView` is not written. -/
def runFetchCourses (s : NavState) : BrowseOutcome (List Course) → NavState
  | BrowseOutcome.success data => { s with courses := data, loading := false }
  | BrowseOutcome.failure msg => { s with error := some msg, loading := false }

/-- Net effect of `fetchModules` (CanvasPanel.tsx lines 82-97): on success
store the list and move to the `modules` view; on failure set `error` and
leave the view alone. -/
def runFetchModules (s : NavState) : BrowseOutcome (List CModule) → NavState
  | BrowseOutcome.success data =>
    { s with modules := data, currentView := ViewType.modules, loading := false }
  | BrowseOutcome.failure msg => { s with error := some msg, loading := false }

/-- Net effect of `fetchModuleItems` (CanvasPanel.tsx lines 99-114). -/
def runFetchModuleItems (s : NavState) : BrowseOutcome (List ModuleItem) → NavState
  | BrowseOutcome.success data =>
    { s with items := data, currentView := ViewType.items, loading := false }
  | BrowseOutcome.failure msg => { s with error := some msg, loading := false }

/-- `handleBackClick` (CanvasPanel.tsx lines 128-137). -/
def handleBackClick (s : NavState) : NavState :=
  match s.currentView with
  | ViewType.items => { s with currentView := ViewType.modules, selectedModule := none }
  | ViewType.modules =>
    { s with currentView := ViewType.courses, selectedCourse := none, modules := [] }
  | ViewType.courses => s

/-- One atomic navigator operation.  A drill-down click carries the outcome of
the browse fetch it starts: while that fetch is pending the component renders
only the loading spinner (CanvasPanel.tsx lines 208-214), so no further
navigation event can fire before the fetch settles, and bundling the outcome
with the click is faithful to the source's event ordering. -/
inductive NavEvent where
  | clickCourse (c : Course) (out : BrowseOutcome (List CModule))
  | clickModule (m : CModule) (out : BrowseOutcome (List ModuleItem))
  | back
  | enterCourses (out : BrowseOutcome (List Course))
deriving Repr

/-- One step of the navigator: `handleCourseClick` (lines 116-119),
`handleModuleClick` (lines 121-126, with its `if (selectedCourse)` guard),
`handleBackClick`, and the mount/return effect's `fetchCourses` (guarded by
`currentView === 'courses'`, lines 77-79). -/
def navStep (s : NavState) : NavEvent → NavState
  | NavEvent.clickCourse c out => runFetchModules { s with selectedCourse := some c } out
  | NavEvent.clickModule m out =>
    let s1 := { s with selectedModule := some m }
    match s1.selectedCourse with
    | some _ => runFetchModuleItems s1 out
    | none => s1
  | NavEvent.back => handleBackClick s
  | NavEvent.enterCourses out =>
    if s.currentView = ViewType.courses then runFetchCourses s out else s

/-- What the component's top-level return displays
(CanvasPanel.tsx lines 208-222 and 341-366): the spinner while loading,
otherwise the error message when `error` is set, otherwise the list view of
the current level. -/
inductive PanelView where
  | spinner
  | errorView (msg : String)
  | listView (v : ViewType)
deriving DecidableEq, Repr

/-- The render dispatch of `CanvasPanel`. -/
def renderPanel (s : NavState) : PanelView :=
  if s.loading then PanelView.spinner
  else
    match s.error with
    | some m => PanelView.errorView m
    | none => PanelView.listView s.currentView

/-- The navigator invariant of the spec: the active level is one of the three
views, `modules` implies a selected course, `items` implies both selections. -/
def navInvariant (s : NavState) : Prop :=
  (s.currentView = ViewType.courses ∨ s.currentView = ViewType.modules ∨
    s.currentView = ViewType.items) ∧
  (s.currentView = ViewType.modules → s.selectedCourse ≠ none) ∧
  (s.currentView = ViewType.items → s.selectedCourse ≠ none ∧ s.selectedModule ≠ none)

/-! ## CanvasPanel: upload state tracker -/

/-- The two `Set<number>` hooks of `CanvasPanel`
(`uploadingFiles` / `uploadedFiles`, keyed by `content_id`). -/
structure UploadState where
  uploadingFiles : Finset Nat
  uploadedFiles : Finset Nat
deriving DecidableEq

/-- What `renderItems` shows next to a `File` item
(CanvasPanel.tsx lines 314-331): the green `Uploaded` badge once in
`uploadedFiles`, else the upload button, disabled while in `uploadingFiles`. -/
inductive FileControl where
  | uploadedBadge
  | uploadButton (disabled : Bool)
deriving DecidableEq, Repr

/-- The per-item control rendered for a `File` item with this `content_id`. -/
def renderFileControl (s : UploadState) (contentId : Nat) : FileControl :=
  if contentId ∈ s.uploadedFiles then FileControl.uploadedBadge
  else FileControl.uploadButton (if contentId ∈ s.uploadingFiles then true else false)

/-- The synchronous prefix of `handleFileUpload` (CanvasPanel.tsx line 143):
`setUploadingFiles(prev => new Set(prev).add(fileId))`. -/
def beginUpload (s : UploadState) (contentId : Nat) : UploadState :=
  { s with uploadingFiles := insert contentId s.uploadingFiles }

/-- A click on the file item's control: the DOM delivers it to
`handleFileUpload` only when the control is an enabled upload button.
Returns the new state and whether a relay call was started. -/
def clickUpload (s : UploadState) (contentId : Nat) : UploadState × Bool :=
  match renderFileControl s contentId with
  | FileControl.uploadedBadge => (s, false)
  | FileControl.uploadButton true => (s, false)
  | FileControl.uploadButton false => (beginUpload s contentId, true)

/-- Settlement of `handleFileUpload`'s awaited relay
(CanvasPanel.tsx lines 158-186): on success add the id to `uploadedFiles`;
in the `finally` remove it from `uploadingFiles`; the catch branch touches
neither set. -/
def completeUpload (s : UploadState) (contentId : Nat) (success : Bool) : UploadState :=
  let s1 :=
    if success then { s with uploadedFiles := insert contentId s.uploadedFiles } else s
  { s1 with uploadingFiles := s1.uploadingFiles.erase contentId }

/-! ## Concrete values used by witnesses and counterexamples -/

/-- A concrete module used in witness states. -/
def exModule : CModule :=
  { id := 55
    name := "Module 55"
    position := 1
    unlock_at := none
    require_sequential_progress := false
    state := "active"
    completed_at := none
    items_count := 3 }

/-- A navigator state at the `items` level, as reached after drilling into a
course and then a module. -/
def exNavItems : NavState :=
  { courses := [mkCourse 10]
    modules := [exModule]
    items := []
    loading := false
    error := none
    currentView := ViewType.items
    selectedCourse := some (mkCourse 10)
    selectedModule := some exModule }

/-! ## Claim theorems -/

/-- C3: every course list the `/courses` route returns contains only courses
with `workflow_state = "available"`, has length at most 20, and is a sublist
of the formatted upstream list (hence preserves the upstream relative order);
on a concrete upstream list of 25 courses of which 22 are available
(indices 7, 15, 23 are not), exactly the first 20 available ones are
returned, in their original relative order. -/
theorem c3_courses_available_cap20_ordered :
    (∀ (l : List Course) (fc : FormattedCourse),
        fc ∈ coursesBody l → fc.workflow_state = "available") ∧
    (∀ (l : List Course), (coursesBody l).length ≤ 20) ∧
    (∀ (l : List Course), (coursesBody l).Sublist (l.map formatCourse)) ∧
    (coursesBody scenarioA).map FormattedCourse.id =
      [0, 1, 2, 3, 4, 5, 6, 8, 9, 10, 11, 12, 13, 14, 16, 17, 18, 19, 20, 21] := by
  refine ⟨?_, ?_, ?_, ?_⟩
  · intro l fc hm
    have hm1 : fc ∈ (l.filter fun c => c.workflow_state == "available").map formatCourse :=
      List.mem_of_mem_take hm
    obtain ⟨c, hc, rfl⟩ := List.mem_map.mp hm1
    have hp : (c.workflow_state == "available") = true := (List.mem_filter.mp hc).2
    exact eq_of_beq hp
  · intro l
    exact List.length_take_le 20 _
  · intro l
    exact ((List.take_sublist 20 _).trans ((List.filter_sublist l).map formatCourse))
  · decide

/-- C3 witness: the formatted course 0 is in the returned Scenario A list and
is `available`; the hypothesis of the first conjunct is discharged at that
concrete membership. -/
theorem c3_witness :
    (formatCourse (mkCourse 0)).workflow_state = "available" :=
  c3_courses_available_cap20_ordered.1 scenarioA (formatCourse (mkCourse 0)) (by decide)

/-- C6: `back()` from the `items` level yields the `modules` level with
`selectedModule` cleared and every other field — the module list included —
unchanged; `back()` from `modules` yields `courses` with `selectedCourse`
cleared and the module list emptied; `back()` at `courses` is a no-op. -/
theorem c6_back_navigation (s : NavState) :
    (s.currentView = ViewType.items →
      handleBackClick s =
        { s with currentView := ViewType.modules, selectedModule := none }) ∧
    (s.currentView = ViewType.modules →
      handleBackClick s =
        { s with currentView := ViewType.courses, selectedCourse := none, modules := [] }) ∧
    (s.currentView = ViewType.courses → handleBackClick s = s) := by
  refine ⟨?_, ?_, ?_⟩ <;> intro h <;> simp [handleBackClick, h]

/-- C6 witness: from a concrete `items`-level state, `back()` returns to
`modules`, clears the selected module, and leaves the module list intact. -/
theorem c6_witness :
    handleBackClick exNavItems =
      { exNavItems with currentView := ViewType.modules, selectedModule := none } ∧
    (handleBackClick exNavItems).modules = exNavItems.modules :=
  ⟨(c6_back_navigation exNavItems).1 rfl, by decide⟩

/-- Every `ViewType` value is one of the three levels. -/
theorem viewType_cases (v : ViewType) :
    v = ViewType.courses ∨ v = ViewType.modules ∨ v = ViewType.items := by
  cases v <;> simp

/-- The initial hook state satisfies the navigator invariant. -/
theorem navInvariant_init : navInvariant navInit := by
  simp [navInvariant, navInit]

/-- One navigator step preserves the navigator invariant. -/
theorem navInvariant_step (s : NavState) (e : NavEvent) (h : navInvariant s) :
    navInvariant (navStep s e) := by
  obtain ⟨-, h2, h3⟩ := h
  cases e with
  | clickCourse c out =>
    cases out with
    | success data =>
      have hn : navStep s (NavEvent.clickCourse c (BrowseOutcome.success data)) =
          { s with selectedCourse := some c, modules := data,
                   currentView := ViewType.modules, loading := false } := by
        simp [navStep, runFetchModules]
      rw [hn]
      exact ⟨viewType_cases _, fun _ => by simp, fun hi => by simp at hi⟩
    | failure msg =>
      have hn : navStep s (NavEvent.clickCourse c (BrowseOutcome.failure msg)) =
          { s with selectedCourse := some c, error := some msg, loading := false } := by
        simp [navStep, runFetchModules]
      rw [hn]
      refine ⟨viewType_cases _, fun _ => by simp, fun hi => ?_⟩
      have hi' : s.currentView = ViewType.items := hi
      exact ⟨by simp, (h3 hi').2⟩
  | clickModule m out =>
    cases hsc : s.selectedCourse with
    | none =>
      have hn : navStep s (NavEvent.clickModule m out) =
          { s with selectedModule := some m } := by
        simp [navStep, hsc]
      rw [hn]
      refine ⟨viewType_cases _, fun hm => ?_, fun hi => ?_⟩
      · exact h2 hm
      · exact ⟨(h3 hi).1, by simp⟩
    | some course =>
      cases out with
      | success data =>
        have hn : navStep s (NavEvent.clickModule m (BrowseOutcome.success data)) =
            { s with selectedModule := some m, items := data,
                     currentView := ViewType.items, loading := false } := by
          simp [navStep, hsc, runFetchModuleItems]
        rw [hn]
        refine ⟨viewType_cases _, fun hm => by simp at hm, fun _ => ?_⟩
        exact ⟨by simp [hsc], by simp⟩
      | failure msg =>
        have hn : navStep s (NavEvent.clickModule m (BrowseOutcome.failure msg)) =
            { s with selectedModule := some m, error := some msg, loading := false } := by
          simp [navStep, hsc, runFetchModuleItems]
        rw [hn]
        refine ⟨viewType_cases _, fun _ => by simp [hsc], fun _ => ?_⟩
        exact ⟨by simp [hsc], by simp⟩
  | back =>
    rcases viewType_cases s.currentView with hv0 | hv0 | hv0
    · have hn : navStep s NavEvent.back = s := by
        simp [navStep, handleBackClick, hv0]
      rw [hn]
      exact ⟨viewType_cases _, h2, h3⟩
    · have hn : navStep s NavEvent.back =
          { s with currentView := ViewType.courses, selectedCourse := none, modules := [] } := by
        simp [navStep, handleBackClick, hv0]
      rw [hn]
      exact ⟨viewType_cases _, fun hm => by simp at hm, fun hi => by simp at hi⟩
    · have hn : navStep s NavEvent.back =
          { s with currentView := ViewType.modules, selectedModule := none } := by
        simp [navStep, handleBackClick, hv0]
      rw [hn]
      exact ⟨viewType_cases _, fun _ => (h3 hv0).1, fun hi => by simp at hi⟩
  | enterCourses out =>
    by_cases hcv : s.currentView = ViewType.courses
    · cases out with
      | success data =>
        have hn : navStep s (NavEvent.enterCourses (BrowseOutcome.success data)) =
            { s with courses := data, loading := false } := by
          simp [navStep, hcv, runFetchCourses]
        rw [hn]
        exact ⟨viewType_cases _, h2, h3⟩
      | failure msg =>
        have hn : navStep s (NavEvent.enterCourses (BrowseOutcome.failure msg)) =
            { s with error := some msg, loading := false } := by
          simp [navStep, hcv, runFetchCourses]
        rw [hn]
        exact ⟨viewType_cases _, h2, h3⟩
    · have hn : navStep s (NavEvent.enterCourses out) = s := by
        simp [navStep, hcv]
      rw [hn]
      exact ⟨viewType_cases _, h2, h3⟩

/-- Any sequence of navigator events preserves the navigator invariant. -/
theorem navInvariant_run (evs : List NavEvent) (s : NavState) (h : navInvariant s) :
    navInvariant (List.foldl navStep s evs) := by
  induction evs generalizing s with
  | nil => exact h
  | cons e rest ih => exact ih _ (navInvariant_step s e h)

/-- C7: the navigator invariant — the active level is always exactly one of
`courses`/`modules`/`items`, the `modules` level always has a non-null
`selectedCourse`, and the `items` level has both selections non-null — holds
initially, is preserved by every single operation (drill-down with its fetch
outcome, back, courses re-fetch), and therefore holds after any sequence of
operations from the initial state. -/
theorem c7_nav_invariant_preserved :
    navInvariant navInit ∧
    (∀ (s : NavState) (e : NavEvent), navInvariant s → navInvariant (navStep s e)) ∧
    (∀ (evs : List NavEvent), navInvariant (List.foldl navStep navInit evs)) :=
  ⟨navInvariant_init, navInvariant_step,
    fun evs => navInvariant_run evs navInit navInvariant_init⟩

/-- C7 witness: the invariant holds after a concrete drill-down step from the
initial state; the invariant hypothesis is discharged there by `simp`. -/
theorem c7_witness :
    navInvariant (navStep navInit
      (NavEvent.clickCourse (mkCourse 10) (BrowseOutcome.success [exModule]))) :=
  c7_nav_invariant_preserved.2.1 navInit
    (NavEvent.clickCourse (mkCourse 10) (BrowseOutcome.success [exModule]))
    (by simp [navInvariant, navInit])

/-- C8: when a browse fetch fails (courses re-fetch, modules fetch, or items
fetch), the navigation level is unchanged, the error message is stored, and
the panel render replaces the list view with the error view; the module-items
conjunct assumes a selected course, since without one no request is issued
(and the level is still unchanged). -/
theorem c8_browse_failure_keeps_level (s : NavState) (c : Course) (m : CModule) (msg : String) :
    ((navStep s (NavEvent.clickCourse c (BrowseOutcome.failure msg))).currentView =
        s.currentView ∧
      (navStep s (NavEvent.clickCourse c (BrowseOutcome.failure msg))).error = some msg ∧
      renderPanel (navStep s (NavEvent.clickCourse c (BrowseOutcome.failure msg))) =
        PanelView.errorView msg) ∧
    ((navStep s (NavEvent.clickModule m (BrowseOutcome.failure msg))).currentView =
        s.currentView ∧
      (s.selectedCourse ≠ none →
        (navStep s (NavEvent.clickModule m (BrowseOutcome.failure msg))).error = some msg ∧
        renderPanel (navStep s (NavEvent.clickModule m (BrowseOutcome.failure msg))) =
          PanelView.errorView msg)) ∧
    (s.currentView = ViewType.courses →
      (navStep s (NavEvent.enterCourses (BrowseOutcome.failure msg))).currentView =
        s.currentView ∧
      (navStep s (NavEvent.enterCourses (BrowseOutcome.failure msg))).error = some msg ∧
      renderPanel (navStep s (NavEvent.enterCourses (BrowseOutcome.failure msg))) =
        PanelView.errorView msg) := by
  refine ⟨?_, ?_, ?_⟩
  · simp [navStep, runFetchModules, renderPanel]
  · cases hsc : s.selectedCourse with
    | none =>
      refine ⟨by simp [navStep, hsc], fun hne => absurd rfl hne⟩
    | some course =>
      refine ⟨by simp [navStep, hsc, runFetchModuleItems], fun _ => ?_⟩
      simp [navStep, hsc, runFetchModuleItems, renderPanel]
  · intro hcv
    simp [navStep, hcv, runFetchCourses, renderPanel]

/-- C8 witness: a failing items fetch from a concrete `items`-level state
keeps the level and renders the error view; the selected-course hypothesis is
discharged at that state by `decide`. -/
theorem c8_witness :
    (navStep exNavItems (NavEvent.clickModule exModule (BrowseOutcome.failure "boom"))).currentView =
      exNavItems.currentView ∧
    renderPanel (navStep exNavItems (NavEvent.clickModule exModule (BrowseOutcome.failure "boom"))) =
      PanelView.errorView "boom" :=
  ⟨(c8_browse_failure_keeps_level exNavItems (mkCourse 0) exModule "boom").2.1.1,
   ((c8_browse_failure_keeps_level exNavItems (mkCourse 0) exModule "boom").2.1.2
      (by decide)).2⟩

/-- An upload-tracker state with nothing in flight and nothing uploaded. -/
def exUploadIdle : UploadState := { uploadingFiles := ∅, uploadedFiles := ∅ }

/-- An upload-tracker state with content id 777 in flight. -/
def exUploadBusy : UploadState := { uploadingFiles := {777}, uploadedFiles := ∅ }

/-- C4: while a `content_id` is in `uploadingFiles` (a relay in flight) its
upload button is rendered disabled, and a click on the item starts no relay
and changes nothing; from an idle state, a first click starts the relay and
an immediately following second click on the same item is a no-op, so only
one relay call is ever started. -/
theorem c4_inflight_click_starts_no_relay (s : UploadState) (contentId : Nat) :
    (contentId ∈ s.uploadingFiles → contentId ∉ s.uploadedFiles →
      renderFileControl s contentId = FileControl.uploadButton true) ∧
    (contentId ∈ s.uploadingFiles → clickUpload s contentId = (s, false)) ∧
    (contentId ∉ s.uploadingFiles → contentId ∉ s.uploadedFiles →
      (clickUpload s contentId).2 = true ∧
      clickUpload (clickUpload s contentId).1 contentId =
        ((clickUpload s contentId).1, false)) := by
  refine ⟨?_, ?_, ?_⟩
  · intro hin hnot
    simp [renderFileControl, hin, hnot]
  · intro hin
    by_cases hdone : contentId ∈ s.uploadedFiles
    · simp [clickUpload, renderFileControl, hdone]
    · simp [clickUpload, renderFileControl, hdone, hin]
  · intro hnin hnot
    simp [clickUpload, renderFileControl, hnot, hnin, beginUpload, Finset.mem_insert]

/-- C4 witness: from the idle state, a first click on item 777 starts the
relay and the second rapid click is a no-op; the hypotheses are discharged at
the empty sets by `decide`. -/
theorem c4_witness :
    (clickUpload exUploadIdle 777).2 = true ∧
    clickUpload (clickUpload exUploadIdle 777).1 777 =
      ((clickUpload exUploadIdle 777).1, false) :=
  (c4_inflight_click_starts_no_relay exUploadIdle 777).2.2 (by decide) (by decide)

/-- C5: after a relay for a `content_id` settles, the id is out of
`uploadingFiles` in both cases; on success it is in `uploadedFiles` and the
item thereafter renders the terminal `Uploaded` badge instead of the upload
trigger; on failure `uploadedFiles` is unchanged (the id is not marked done)
and, if it was not previously done, the item renders an enabled upload button
again so the user may retry. -/
theorem c5_relay_settlement (s : UploadState) (contentId : Nat) (success : Bool) :
    contentId ∉ (completeUpload s contentId success).uploadingFiles ∧
    (success = true →
      contentId ∈ (completeUpload s contentId success).uploadedFiles ∧
      renderFileControl (completeUpload s contentId success) contentId =
        FileControl.uploadedBadge) ∧
    (success = false →
      (contentId ∈ (completeUpload s contentId success).uploadedFiles ↔
        contentId ∈ s.uploadedFiles) ∧
      (contentId ∉ s.uploadedFiles →
        renderFileControl (completeUpload s contentId success) contentId =
          FileControl.uploadButton false)) := by
  refine ⟨?_, ?_, ?_⟩
  · cases success <;> simp [completeUpload]
  · intro hs
    subst hs
    refine ⟨by simp [completeUpload, Finset.mem_insert], ?_⟩
    simp [completeUpload, renderFileControl, Finset.mem_insert]
  · intro hs
    subst hs
    refine ⟨by simp [completeUpload], fun hnot => ?_⟩
    simp [completeUpload, renderFileControl, hnot, Finset.not_mem_erase]

/-- C5 witness: settling the in-flight relay for id 777 successfully takes it
out of `uploadingFiles`, marks it uploaded, and renders the badge. -/
theorem c5_witness :
    777 ∉ (completeUpload exUploadBusy 777 true).uploadingFiles ∧
    777 ∈ (completeUpload exUploadBusy 777 true).uploadedFiles ∧
    renderFileControl (completeUpload exUploadBusy 777 true) 777 =
      FileControl.uploadedBadge :=
  ⟨(c5_relay_settlement exUploadBusy 777 true).1,
   ((c5_relay_settlement exUploadBusy 777 true).2.1 rfl).1,
   ((c5_relay_settlement exUploadBusy 777 true).2.1 rfl).2⟩

/-- A configuration with both env variables set. -/
def cfgOk : CanvasConfig := { apiKey := some "test-key", baseUrl := some "canvas.example.edu" }

/-- A configuration with both env variables unset. -/
def cfgUnset : CanvasConfig := { apiKey := none, baseUrl := none }

/-- Concrete upstream file metadata used in relay runs. -/
def exFileData : CanvasFileData :=
  { id := 777
    filename := "notes.pdf"
    display_name := "Notes.pdf"
    contentType := "application/pdf"
    size := 1024
    url := "https://files.example.edu/notes.pdf"
    created_at := "2024-01-01"
    updated_at := "2024-01-02" }

/-- A relay run in which metadata fetch and download succeed and the
ingestion handoff raises. -/
def relayEnvIngestRaise : RelayEnv :=
  { fileId := "321"
    userId := "user1"
    uploadsDir := "uploads"
    metadataResult := FetchResult.ok exFileData
    downloadOk := true
    downloadStatus := 200
    downloadStatusText := "OK"
    ingest := IngestOutcome.raise "ingestion failed"
    unlinkOk := true }

/-- A relay run in which everything, the ingestion handoff included,
succeeds. -/
def relayEnvIngestOk : RelayEnv :=
  { relayEnvIngestRaise with ingest := IngestOutcome.ok "ingested" }

/-- C1: evaluation of the relay handler at the failing input — valid
configuration, metadata fetch and content download succeed, the ingestion
handoff raises.  The staged file was created, yet no deletion is attempted
and the staged path still exists when the handler returns: the
`fs.unlinkSync` cleanup lies on the success path only, and the catch branch
performs none. -/
theorem c1_cleanup_skipped_on_ingest_raise :
    (downloadAndUpload cfgOk relayEnvIngestRaise).tempCreated = true ∧
    (downloadAndUpload cfgOk relayEnvIngestRaise).unlinkAttempted = false ∧
    (downloadAndUpload cfgOk relayEnvIngestRaise).tempExistsAfter = true :=
  ⟨rfl, rfl, rfl⟩

/-- C2 counterexample: a failing relay reply (HTTP 500) whose body is not
just `{error, details}` — the ingestion handoff raised after the `res.json`
override was installed, so the error body also carries `originalFile` and
`message`. -/
theorem c2_error_body_not_plain :
    (downloadAndUpload cfgOk relayEnvIngestRaise).status = 500 ∧
    (downloadAndUpload cfgOk relayEnvIngestRaise).body.error =
      some "Failed to upload file to LibreChat" ∧
    (downloadAndUpload cfgOk relayEnvIngestRaise).body.originalFile ≠ none ∧
    (downloadAndUpload cfgOk relayEnvIngestRaise).body.message ≠ none := by
  refine ⟨rfl, rfl, by decide, by decide⟩

/-- C2 (amended): on success the relay replies 200 with the ingestion result
augmented with `originalFile` and the success message; failures arising
before the `res.json` override is installed (missing configuration, metadata
fetch failure, download failure) reply 500 with a body holding only `error`
and possibly `details`; a failure of the ingestion handoff replies 500 with
an `{error, details}` body that is additionally augmented with
`originalFile` and `message` by the already-installed override. -/
theorem c2_response_contract (cfg : CanvasConfig) (env : RelayEnv) :
    (∀ (fd : CanvasFileData) (r : String),
      configMissing cfg = false → env.metadataResult = FetchResult.ok fd →
      env.downloadOk = true → env.ingest = IngestOutcome.ok r →
      (downloadAndUpload cfg env).status = 200 ∧
      (downloadAndUpload cfg env).body =
        { ingestResult := some r
          originalFile :=
            some { id := fd.id, filename := fd.filename, display_name := fd.display_name }
          message := some (relayMessage fd)
          error := none
          details := none }) ∧
    (configMissing cfg = true →
      (downloadAndUpload cfg env).status = 500 ∧
      (downloadAndUpload cfg env).body = plainErrorBody "Canvas configuration not found" none) ∧
    (∀ (st : Nat) (stText : String),
      configMissing cfg = false → env.metadataResult = FetchResult.notOk st stText →
      (downloadAndUpload cfg env).status = 500 ∧
      (downloadAndUpload cfg env).body = plainErrorBody "Failed to upload file to LibreChat"
        (some ("Canvas API error: " ++ toString st ++ " " ++ stText))) ∧
    (∀ (fd : CanvasFileData),
      configMissing cfg = false → env.metadataResult = FetchResult.ok fd →
      env.downloadOk = false →
      (downloadAndUpload cfg env).status = 500 ∧
      (downloadAndUpload cfg env).body = plainErrorBody "Failed to upload file to LibreChat"
        (some ("File download error: " ++ toString env.downloadStatus ++ " " ++
          env.downloadStatusText))) ∧
    (∀ (fd : CanvasFileData) (m : String),
      configMissing cfg = false → env.metadataResult = FetchResult.ok fd →
      env.downloadOk = true → env.ingest = IngestOutcome.raise m →
      (downloadAndUpload cfg env).status = 500 ∧
      (downloadAndUpload cfg env).body =
        { ingestResult := none
          originalFile :=
            some { id := fd.id, filename := fd.filename, display_name := fd.display_name }
          message := some (relayMessage fd)
          error := some "Failed to upload file to LibreChat"
          details := some m }) := by
  refine ⟨?_, ?_, ?_, ?_, ?_⟩
  · intro fd r hc hm hd hi
    simp [downloadAndUpload, hc, hm, hd, hi]
  · intro hc
    simp [downloadAndUpload, hc]
  · intro st stText hc hm
    simp [downloadAndUpload, hc, hm]
  · intro fd hc hm hd
    simp [downloadAndUpload, hc, hm, hd]
  · intro fd m hc hm hd hi
    simp [downloadAndUpload, hc, hm, hd, hi]

/-- C2 witness: the amended contract instantiated at a concrete successful
relay run; every hypothesis is discharged there by `rfl` or `decide`. -/
theorem c2_witness :
    (downloadAndUpload cfgOk relayEnvIngestOk).status = 200 ∧
    (downloadAndUpload cfgOk relayEnvIngestOk).body =
      { ingestResult := some "ingested"
        originalFile := some { id := 777, filename := "notes.pdf", display_name := "Notes.pdf" }
        message := some (relayMessage exFileData)
        error := none
        details := none } :=
  (c2_response_contract cfgOk relayEnvIngestOk).1 exFileData "ingested"
    (by decide) rfl rfl rfl

/-- C9: whenever the base URL or the API key is unset (or empty, which the
`!` guard also treats as missing), every route — the three browse routes,
the file-metadata route, and the relay route — replies with the
`Canvas configuration not found` error and attempts no upstream request. -/
theorem c9_config_guard (cfg : CanvasConfig)
    (u1 : FetchResult (List Course)) (u2 : FetchResult (List CModule))
    (u3 : FetchResult (List ModuleItem)) (u4 : FetchResult CanvasFileData)
    (courseId moduleId fileId : String) (env : RelayEnv)
    (h : configMissing cfg = true) :
    getCoursesHandler cfg u1 = (ApiResult.failure "Canvas configuration not found", []) ∧
    getModulesHandler cfg courseId u2 =
      (ApiResult.failure "Canvas configuration not found", []) ∧
    getItemsHandler cfg courseId moduleId u3 =
      (ApiResult.failure "Canvas configuration not found", []) ∧
    getFileHandler cfg fileId u4 = (ApiResult.failure "Canvas configuration not found", []) ∧
    (downloadAndUpload cfg env).status = 500 ∧
    (downloadAndUpload cfg env).body = plainErrorBody "Canvas configuration not found" none ∧
    (downloadAndUpload cfg env).requests = [] := by
  refine ⟨?_, ?_, ?_, ?_, ?_, ?_, ?_⟩ <;>
    simp [getCoursesHandler, getModulesHandler, getItemsHandler, getFileHandler,
      downloadAndUpload, h]

/-- C9 witness: with both env variables unset, the courses route replies with
the configuration error and the relay route attempts no request. -/
theorem c9_witness :
    configMissing cfgUnset = true ∧
    getCoursesHandler cfgUnset (FetchResult.ok []) =
      (ApiResult.failure "Canvas configuration not found", []) ∧
    (downloadAndUpload cfgUnset relayEnvIngestOk).requests = [] :=
  ⟨by decide,
   (c9_config_guard cfgUnset (FetchResult.ok []) (FetchResult.ok []) (FetchResult.ok [])
      (FetchResult.ok exFileData) "1" "2" "3" relayEnvIngestOk (by decide)).1,
   (c9_config_guard cfgUnset (FetchResult.ok []) (FetchResult.ok []) (FetchResult.ok [])
      (FetchResult.ok exFileData) "1" "2" "3" relayEnvIngestOk (by decide)).2.2.2.2.2.2⟩

/-- In `u ++ '/' :: f`, a slash-free `u` is exactly the segment before the
first slash, so it is determined by the whole string. -/
theorem user_segment_eq (u1 u2 f1 f2 : List Char)
    (h1 : '/' ∉ u1) (h2 : '/' ∉ u2)
    (h : u1 ++ '/' :: f1 = u2 ++ '/' :: f2) : u1 = u2 := by
  induction u1 generalizing u2 with
  | nil =>
    cases u2 with
    | nil => rfl
    | cons c t =>
      rw [List.nil_append, List.cons_append] at h
      injection h with hc _
      have hmem : '/' ∈ c :: t := by
        rw [← hc]
        exact List.mem_cons_self '/' t
      exact absurd hmem h2
  | cons a t1 ih =>
    cases u2 with
    | nil =>
      rw [List.cons_append, List.nil_append] at h
      injection h with ha _
      have hmem : '/' ∈ a :: t1 := by
        rw [ha]
        exact List.mem_cons_self '/' t1
      exact absurd hmem h1
    | cons b t2 =>
      rw [List.cons_append, List.cons_append] at h
      injection h with hab ht
      have h1' : '/' ∉ t1 := fun hm => h1 (List.mem_cons_of_mem a hm)
      have h2' : '/' ∉ t2 := fun hm => h2 (List.mem_cons_of_mem b hm)
      rw [hab, ih t2 h1' h2' ht]

/-- Slash-free user ids land in distinct staged paths. -/
theorem tempFilePathOf_user_ne (d u1 u2 f1 f2 : String)
    (h1 : '/' ∉ u1.data) (h2 : '/' ∉ u2.data) (hne : u1 ≠ u2) :
    tempFilePathOf d u1 f1 ≠ tempFilePathOf d u2 f2 := by
  intro h
  apply hne
  apply String.ext
  have hd := congrArg String.data h
  simp only [tempFilePathOf, String.data_append, List.append_assoc] at hd
  have hd1 := List.append_cancel_left hd
  have hd2 := List.append_cancel_left hd1
  exact user_segment_eq u1.data u2.data f1.data f2.data h1 h2 hd2

/-- C10: whenever staging is reached, the staged path is
`<uploads>/temp/<userId>/<filename>`; it does not depend on the request's
`fileId`; two callers with distinct slash-free user ids always stage to
distinct paths; and the same caller staging two files with the same upstream
filename stages to the same path. -/
theorem c10_staged_path_shape :
    (∀ (cfg : CanvasConfig) (env : RelayEnv) (fd : CanvasFileData),
      configMissing cfg = false → env.metadataResult = FetchResult.ok fd →
      env.downloadOk = true →
      (downloadAndUpload cfg env).tempPath =
        some (tempFilePathOf env.uploadsDir env.userId fd.filename)) ∧
    (∀ (cfg : CanvasConfig) (env : RelayEnv) (fid : String),
      (downloadAndUpload cfg { env with fileId := fid }).tempPath =
        (downloadAndUpload cfg env).tempPath) ∧
    (∀ (d u1 u2 f1 f2 : String), '/' ∉ u1.data → '/' ∉ u2.data → u1 ≠ u2 →
      tempFilePathOf d u1 f1 ≠ tempFilePathOf d u2 f2) ∧
    (∀ (d u f1 f2 : String), f1 = f2 → tempFilePathOf d u f1 = tempFilePathOf d u f2) := by
  refine ⟨?_, ?_, ?_, ?_⟩
  · intro cfg env fd hc hm hd
    cases hi : env.ingest <;> simp [downloadAndUpload, hc, hm, hd, hi]
  · intro cfg env fid
    by_cases hc : configMissing cfg = true
    · simp [downloadAndUpload, hc]
    · cases hm : env.metadataResult with
      | notOk st t => simp [downloadAndUpload, hc, hm]
      | ok fd =>
        by_cases hd : env.downloadOk = false
        · simp [downloadAndUpload, hc, hm, hd]
        · cases hi : env.ingest <;> simp [downloadAndUpload, hc, hm, hd, hi]
  · exact tempFilePathOf_user_ne
  · intro d u f1 f2 h
    rw [h]

/-- C10 witness: two concrete distinct slash-free callers stage the same
filename to distinct paths, and changing only the `fileId` of a concrete
relay run leaves the staged path unchanged. -/
theorem c10_witness :
    tempFilePathOf "uploads" "alice" "notes.pdf" ≠ tempFilePathOf "uploads" "bob" "notes.pdf" ∧
    (downloadAndUpload cfgOk { relayEnvIngestOk with fileId := "999" }).tempPath =
      (downloadAndUpload cfgOk relayEnvIngestOk).tempPath :=
  ⟨c10_staged_path_shape.2.2.1 "uploads" "alice" "bob" "notes.pdf" "notes.pdf"
      (by decide) (by decide) (by decide),
   c10_staged_path_shape.2.1 cfgOk relayEnvIngestOk "999"⟩

end CanvasLibreChat
